import Mathlib

/-!
Verification of the concurrent session-coordination and intent-routed
response pipeline of the KSK conversational backend (app/main.py, app/rag.py,
app/database.py, app/schemas.py, app/config.py), as a shallow embedding.

Stateful Python code is embedded as explicit state passing; external
collaborators (LLM backend, vector search, record API) are oracle inputs;
calls to them are recorded in explicit effect traces.
-/

set_option autoImplicit false

namespace KSK

/-! ### Configuration defaults (app/config.py) -/

/-- Default of settings.MAX_HISTORY_MESSAGES. -/
def MAX_HISTORY_MESSAGES : ℕ := 10

/-- Default of settings.AUTHENTICATED_HISTORY_MESSAGES. -/
def AUTHENTICATED_HISTORY_MESSAGES : ℕ := 6

/-- Default of settings.MAX_ANSWER_LENGTH. -/
def MAX_ANSWER_LENGTH : ℕ := 50000

/-- Default of settings.MAX_THREAD_LOCKS. -/
def MAX_THREAD_LOCKS : ℕ := 10000

/-- Default of settings.MAX_TRACKED_IPS. -/
def MAX_TRACKED_IPS : ℕ := 50000

/-! ### Thread id validation (app/main.py `_UUID_RE`, `_validate_thread_id`)

The regex accepts a canonical UUID (five hyphen-separated hex groups of
lengths 8-4-4-4-12) or `thread-` followed by digits, case-insensitively. -/

/-- Hex digit, matching the character class `[0-9a-f]` under `re.IGNORECASE`. -/
def is_hex_digit (c : Char) : Bool :=
  c.isDigit || ('a' ≤ c && c ≤ 'f') || ('A' ≤ c && c ≤ 'F')

/-- Split a character list at every occurrence of `sep` (the groups of the
hyphen-separated UUID form). -/
def splitOnChar (sep : Char) : List Char → List (List Char)
  | [] => [[]]
  | c :: cs =>
      let r := splitOnChar sep cs
      if c == sep then [] :: r
      else
        match r with
        | [] => [[c]]
        | g :: gs => (c :: g) :: gs

/-- The UUID alternative of `_UUID_RE`. -/
def valid_uuid (s : String) : Bool :=
  match splitOnChar '-' s.toList with
  | [a, b, c, d, e] =>
      a.length == 8 && b.length == 4 && c.length == 4 && d.length == 4 &&
      e.length == 12 &&
      (a ++ b ++ c ++ d ++ e).all is_hex_digit
  | _ => false

/-- `_validate_thread_id` succeeds iff the id matches `_UUID_RE`
(`thread-\d+` is modelled with ASCII digits). -/
def valid_thread_id (s : String) : Bool :=
  valid_uuid s ||
  (let cs := s.toList
   (cs.take 7).map Char.toLower == "thread-".toList &&
   !(cs.drop 7).isEmpty && (cs.drop 7).all Char.isDigit)

/-! ### Thread store and `ensure_thread` -/

/-- Modelled from the spec: `ensure_thread` is imported from `app.database`
in app/main.py but its definition is absent from the sources. The spec
(4.6 step 3, 8) requires: if the thread is unknown, create it, with
idempotent "ensure" semantics — never error solely because the thread does
not yet exist. State is the list of existing thread ids. -/
def ensure_thread (threads : List String) (tid : String) : List String :=
  if tid ∈ threads then threads else threads ++ [tid]

/-- The thread-handling front of `send_message` (app/main.py): validate the
thread id (reject with 400, modelled as `none`, before any side effect),
then under the thread lock ensure the thread exists. -/
def send_message_thread_setup (threads : List String) (tid : String) :
    Option (List String) :=
  if valid_thread_id tid then some (ensure_thread threads tid) else none

/-! ### Response schema construction (app/schemas.py, app/main.py)

`MessageResponse` declares three required fields (`threadId`, `messageId`,
`answer`), none with a default. Pydantic v2 model construction raises
`ValidationError` when a required field is missing from the supplied keyword
arguments; extra keyword arguments are ignored by default. -/

/-- The required field names of `app.schemas.MessageResponse`. -/
def messageResponseRequiredFields : List String :=
  ["threadId", "messageId", "answer"]

/-- The keyword arguments supplied at the `MessageResponse(...)` construction
in the success path of `send_message` (app/main.py lines 486-491). -/
def sendMessageReturnKwargs : List String :=
  ["message", "reply", "options", "audioUrl"]

/-- Pydantic model construction succeeds iff every required field name is
among the supplied keyword arguments. -/
def pydantic_construct_ok (required provided : List String) : Bool :=
  required.all (fun f => provided.contains f)

/-! ### Rate limiter (app/main.py `RateLimitMiddleware`)

Timestamps (Python `time()` floats) are modelled as rationals. The per-IP
hit map is an association list; `Outcome.rejected` models the 429 response
returned without invoking the downstream handler, `Outcome.allowed` the
`call_next` path, `Outcome.passthrough` the non-GET/POST early return. -/

/-- HTTP method class as distinguished by `dispatch`. -/
inductive Method
  | get
  | post
  | other
deriving DecidableEq

/-- Admission outcome of one `dispatch` call. -/
inductive Outcome
  | allowed
  | rejected
  | passthrough
deriving DecidableEq

/-- Rate limiter state: `self._hits` (per-IP admission timestamps) and
`self._sweep_counter`. -/
structure RLState where
  hits : List (String × List ℚ)
  sweepCounter : ℕ
deriving DecidableEq

/-- `self._hits.get(client_ip, [])`. -/
def hitsGet (hits : List (String × List ℚ)) (ip : String) : List ℚ :=
  match hits.find? (fun e => e.1 == ip) with
  | some e => e.2
  | none => []

/-- `self._hits[client_ip] = timestamps` (dict write: replace if the key is
present, else append). -/
def hitsSet (hits : List (String × List ℚ)) (ip : String) (ts : List ℚ) :
    List (String × List ℚ) :=
  if hits.any (fun e => e.1 == ip) then
    hits.map (fun e => if e.1 == ip then (ip, ts) else e)
  else hits ++ [(ip, ts)]

/-- `_do_sweep`: drop every IP whose timestamp list is empty or entirely
older than the window. -/
def do_sweep (window now : ℚ) (hits : List (String × List ℚ)) :
    List (String × List ℚ) :=
  hits.filter (fun e => !e.2.isEmpty && e.2.any (fun t => decide (now - t < window)))

/-- `RateLimitMiddleware.dispatch`: GET gets triple the base limit, POST the
base limit, other methods pass through untouched. Drop this IP's timestamps
older than the window; reject (without recording anything) when the
remaining count reaches the limit; otherwise append `now`, write back, cap
tracked IPs, and run the periodic sweep every 50 admitted calls. -/
def dispatch (max_requests : ℕ) (window : ℚ) (max_tracked : ℕ)
    (st : RLState) (method : Method) (ip : String) (now : ℚ) :
    Outcome × RLState :=
  match method with
  | .other => (.passthrough, st)
  | _ =>
    let maxReq := match method with
      | .get => max_requests * 3
      | _ => max_requests
    let timestamps :=
      (hitsGet st.hits ip).filter (fun t => decide (now - t < window))
    if maxReq ≤ timestamps.length then
      (.rejected, st)
    else
      let hits := hitsSet st.hits ip (timestamps ++ [now])
      let hits := if max_tracked < hits.length then do_sweep window now hits else hits
      let counter := st.sweepCounter + 1
      if 50 ≤ counter then
        (.allowed, ⟨do_sweep window now hits, 0⟩)
      else
        (.allowed, ⟨hits, counter⟩)

/-- A sequence of POST requests from one caller: fold `dispatch` from the
empty limiter state, collecting the outcomes. -/
def rl_run (max_requests : ℕ) (window : ℚ) (max_tracked : ℕ) (ip : String)
    (times : List ℚ) : List Outcome × RLState :=
  times.foldl
    (fun acc t =>
      (acc.1 ++ [(dispatch max_requests window max_tracked acc.2 .post ip t).1],
       (dispatch max_requests window max_tracked acc.2 .post ip t).2))
    ([], ⟨[], 0⟩)

/-! ### Thread lock registry (app/main.py `get_thread_lock`)

`app.state.thread_locks` is an `OrderedDict[str, asyncio.Lock]` used as a
bounded LRU map: iteration order is insertion order, the front is the
least-recently-used entry. Lock primitives are identified by the counter
value at their creation, so "the identical lock primitive" is equality of
that identifier. -/

/-- The registry: the ordered entries of the `OrderedDict` plus the next
fresh lock identifier. -/
structure LockRegistry where
  entries : List (String × ℕ)
  nextId : ℕ
deriving DecidableEq

/-- `thread_id in locks` / `locks[thread_id]`. -/
def lookupLock (entries : List (String × ℕ)) (tid : String) : Option ℕ :=
  (entries.find? (fun e => e.1 == tid)).map (fun e => e.2)

/-- The eviction loop `while len(locks) >= settings.MAX_THREAD_LOCKS:
locks.popitem(last=False)` — repeatedly drop the least-recently-used (front)
entry until below capacity. -/
def evict_at_capacity (cap : ℕ) : List (String × ℕ) → List (String × ℕ)
  | [] => []
  | e :: rest =>
      if (e :: rest).length < cap then e :: rest
      else evict_at_capacity cap rest

/-- `get_thread_lock`: if the thread id is present, mark it most-recently
used (`move_to_end`) and return the same lock; otherwise evict down to below
capacity and insert a fresh lock. -/
def get_thread_lock (cap : ℕ) (st : LockRegistry) (tid : String) :
    ℕ × LockRegistry :=
  match lookupLock st.entries tid with
  | some lk =>
      (lk, ⟨st.entries.filter (fun e => !(e.1 == tid)) ++ [(tid, lk)], st.nextId⟩)
  | none =>
      (st.nextId,
        ⟨evict_at_capacity cap st.entries ++ [(tid, st.nextId)], st.nextId + 1⟩)

/-- A sequence of lock acquisitions starting from the empty registry. -/
def acquireAll (cap : ℕ) (tids : List String) : LockRegistry :=
  tids.foldl (fun st tid => (get_thread_lock cap st tid).2) ⟨[], 0⟩

/-! ### Intent classification (app/rag.py)

`_keyword_intent` operates on `unicodedata.normalize("NFC", message.lower())`.
The NFC normalization and Unicode case folding happen outside the embedding:
the functions below take the already-normalized message text, over which the
claims quantify. The keyword literals are embedded exactly as written in the
source (they are lowercase and NFC-normal already). -/

/-- Exact constant returned for `LOGIN_REQUIRED` (app/rag.py). -/
def LOGIN_REQUIRED_RESPONSE : String := "<<LOGIN_MODAL_REQUIRED>>"

/-- Exact constant returned for authenticated `ECARD` (app/rag.py). -/
def ECARD_RESPONSE : String := "ECARD"

/-- Fallback text of the `STATUS_CHECK` path when no user data is available. -/
def STATUS_NO_DATA_RESPONSE : String :=
  "Unable to fetch your information at this time. Please try again later."

/-- `_ECARD_KEYWORDS` (app/rag.py). -/
def ECARD_KEYWORDS : List String := [
  "ecard", "e-card", "e card", "download ecard", "print ecard",
  "print id card", "labour card", "labor card", "my card",
  "download card", "print card", "worker card", "id card",
  "show my card", "get my card",
  "ಇ-ಕಾರ್ಡ್", "ಇ ಕಾರ್ಡ್", "ಕಾರ್ಮಿಕ ಕಾರ್ಡ್", "ನನ್ನ ಕಾರ್ಡ್",
  "ಕಾರ್ಡ್ ಡೌನ್‌ಲೋಡ್", "ಗುರುತಿನ ಚೀಟಿ", "ಕಾರ್ಡ್ ತೋರಿಸಿ",
  "ಕಾರ್ಡ್ ಪ್ರಿಂಟ್", "ಕಾರ್ಡ್ ನೋಡಿ"]

/-- `_STATUS_CHECK_KEYWORDS` (app/rag.py). -/
def STATUS_CHECK_KEYWORDS : List String := [
  "check status", "application status", "scheme status", "status check",
  "my status", "registration status", "renewal status",
  "my application", "my registration", "my renewal",
  "is my application", "was my application", "has my application",
  "is it approved", "was it approved", "is it rejected",
  "my schemes", "my scheme", "which schemes", "what schemes",
  "eligible schemes", "eligible for", "am i eligible",
  "schemes do i have", "schemes i have", "schemes available for me",
  "schemes i can apply", "schemes can i apply",
  "my benefits", "my profile", "my details", "my information",
  "my personal", "personal details", "personal information",
  "my name", "my age", "my registration", "my validity",
  "my family", "my nominees", "my dependents",
  "ಸ್ಥಿತಿ ಪರಿಶೀಲಿಸಿ", "ಅರ್ಜಿ ಸ್ಥಿತಿ", "ಯೋಜನೆ ಸ್ಥಿತಿ",
  "ನನ್ನ ಅರ್ಜಿ", "ನನ್ನ ನೋಂದಣಿ", "ನನ್ನ ಸ್ಥಿತಿ",
  "ಅನುಮೋದಿಸಲಾಗಿದೆಯೇ", "ನವೀಕರಣ ಸ್ಥಿತಿ",
  "ಅನುಮೋದನೆ", "ತಿರಸ್ಕರಿಸಲಾಗಿದೆ", "ಬಾಕಿ ಇದೆ",
  "ನನ್ನ ಯೋಜನೆಗಳು", "ನನ್ನ ಯೋಜನೆ", "ಯಾವ ಯೋಜನೆ",
  "ಅರ್ಹತೆ", "ನಾನು ಅರ್ಹ", "ನನ್ನ ವಿವರ",
  "ನನ್ನ ಹೆಸರು", "ನನ್ನ ಮಾಹಿತಿ", "ನನ್ನ ಪ್ರೊಫೈಲ್",
  "ನನ್ನ ಕುಟುಂಬ", "ನನ್ನ ನಾಮಿನಿ"]

/-- Whether `pat` leads the list `l` (prefix test for the substring scan). -/
def leadsWith : List Char → List Char → Bool
  | [], _ => true
  | _ :: _, [] => false
  | a :: as, b :: bs => a == b && leadsWith as bs

/-- Python's `pat in hay` substring containment over code points. -/
def hasSubstr : List Char → List Char → Bool
  | [], pat => pat.isEmpty
  | c :: rest, pat => leadsWith pat (c :: rest) || hasSubstr rest pat

/-- `_keyword_intent` on the normalized message: ECARD keywords first, then
STATUS_CHECK keywords, else no keyword intent. -/
def keyword_intent (msgNorm : String) : Option String :=
  if ECARD_KEYWORDS.any (fun kw => hasSubstr msgNorm.toList kw.toList) then
    some "ECARD"
  else if STATUS_CHECK_KEYWORDS.any (fun kw => hasSubstr msgNorm.toList kw.toList) then
    some "STATUS_CHECK"
  else
    none

/-- `_VALID_INTENTS`. -/
def VALID_INTENTS : List String := ["ECARD", "STATUS_CHECK", "GENERAL"]

/-- First whitespace-delimited token of the raw LLM output
(`raw.strip().split()[0]`, empty when there is no token). -/
def first_token (cs : List Char) : List Char :=
  (cs.dropWhile Char.isWhitespace).takeWhile (fun c => !c.isWhitespace)

/-- `parsed.rstrip(".,;:!?")`. -/
def strip_trailing_punct (cs : List Char) : List Char :=
  (cs.reverse.dropWhile
    (fun c => c == '.' || c == ',' || c == ';' || c == ':' || c == '!' || c == '?')).reverse

/-- `_llm_classify_intent` output handling: `none` models a raised transport
exception. Take the first token, uppercase it (ASCII case mapping), strip
trailing punctuation, and accept only a valid label; anything else falls
back to GENERAL. -/
def parse_llm_intent (raw : Option String) : String :=
  match raw with
  | none => "GENERAL"
  | some r =>
      let parsed := strip_trailing_punct ((first_token r.toList).map Char.toUpper)
      if VALID_INTENTS.any (fun v => v.toList == parsed) then String.mk parsed
      else "GENERAL"

/-- The external-collaborator calls traced by the embedding. -/
inductive ExtCall
  | fetchUser
  | llmClassifyCall
  | llmChatCall
  | retrieveCall
deriving DecidableEq

/-- `_classify_intent`: keyword layer first for everyone; unauthenticated
callers with no keyword match default to GENERAL without an LLM call;
authenticated ambiguous messages go to the LLM classifier. -/
def classify_intent (msgNorm : String) (is_authenticated : Bool)
    (llmRaw : Option String) : String × List ExtCall :=
  match keyword_intent msgNorm with
  | some k => (k, [])
  | none =>
      if !is_authenticated then ("GENERAL", [])
      else (parse_llm_intent llmRaw, [.llmClassifyCall])

/-! ### Personal-data cache (app/database.py, app/rag.py)

The `user_data_cache` table has a unique index on (thread_id, user_id); it
is modelled as an association list from that pair to the serialized record
(`data_json`). `FetchResult` is the external-API oracle: `fetchError` is a
raised exception, `fetchEmpty` the falsy-data branch (`if not data`), and
`fetchOk` a successful fetch of (necessarily truthy) data. The cache write
is modelled as succeeding; a failed write is logged and the fetched data
still returned. -/

/-- The personal-data cache contents. -/
abbrev Cache := List ((String × String) × String)

/-- Outcome of `fetch_user_data` against the external record API. -/
inductive FetchResult
  | fetchError
  | fetchEmpty
  | fetchOk (data : String)
deriving DecidableEq

/-- `get_cached_user_data`: the entry for (thread_id, user_id), if any. -/
def get_cached_user_data (cache : Cache) (tid uid : String) : Option String :=
  (cache.find? (fun e => e.1.1 == tid && e.1.2 == uid)).map (fun e => e.2)

/-- `save_user_data`: `INSERT OR REPLACE` keyed by the unique
(thread_id, user_id) index. -/
def save_user_data (cache : Cache) (tid uid data : String) : Cache :=
  cache.filter (fun e => !(e.1.1 == tid && e.1.2 == uid)) ++ [((tid, uid), data)]

/-- `_get_or_fetch_user_data`: return the cached record if present;
otherwise fetch from the external API, caching (and returning) the data on
success, returning `none` (and caching nothing) on failure or empty data. -/
def get_or_fetch_user_data (cache : Cache) (fetch : FetchResult)
    (tid uid : String) : Option String × Cache × List ExtCall :=
  match get_cached_user_data cache tid uid with
  | some d => (some d, cache, [])
  | none =>
      match fetch with
      | .fetchError => (none, cache, [.fetchUser])
      | .fetchEmpty => (none, cache, [.fetchUser])
      | .fetchOk d => (some d, save_user_data cache tid uid d, [.fetchUser])

/-- `classify_and_prepare` (app/rag.py): classify the intent, then route:
unauthenticated card/status intent becomes LOGIN_REQUIRED with no data;
authenticated ECARD needs no data; any other authenticated intent resolves
the personal data through the cache-or-fetch coordinator. Returns
((intent, user_data), cache, trace). -/
def classify_and_prepare (msgNorm uid tok : String) (llmRaw : Option String)
    (cache : Cache) (fetch : FetchResult) (tid : String) :
    (String × Option String) × Cache × List ExtCall :=
  let is_authenticated := !(uid == "") && !(tok == "")
  let c := classify_intent msgNorm is_authenticated llmRaw
  if (c.1 == "ECARD" || c.1 == "STATUS_CHECK") && !is_authenticated then
    (("LOGIN_REQUIRED", none), cache, c.2)
  else if c.1 == "ECARD" && is_authenticated then
    (("ECARD", none), cache, c.2)
  else if is_authenticated then
    let r := get_or_fetch_user_data cache fetch tid uid
    ((c.1, r.1), r.2.1, c.2 ++ r.2.2)
  else
    ((c.1, none), cache, c.2)

/-! ### History selection (app/database.py, app/main.py)

Messages of a thread are kept in (created_at, rowid) ascending order — the
stated ordering invariant. `get_recent_thread_messages` selects the last
`limit` of them by a descending sort with LIMIT, re-sorted ascending, i.e.
the final `limit` elements in their original order. -/

/-- `get_recent_thread_messages` on the ordered message list. -/
def get_recent_thread_messages {α : Type} (msgs : List α) (limit : ℕ) :
    List α :=
  msgs.drop (msgs.length - limit)

/-- Python `l[-n:]` for `n ≥ 1`: the last `n` elements. -/
def take_last {α : Type} (l : List α) (n : ℕ) : List α :=
  l.drop (l.length - n)

/-- The history computation of `send_message`: fetch the most recent
`history_limit + 1` messages (the just-added user message included), then
drop that last message — `messages[:-1] if len(messages) > 1 else None`. -/
def compute_history {α : Type} (msgs : List α) (history_limit : ℕ) :
    Option (List α) :=
  let messages := get_recent_thread_messages msgs (history_limit + 1)
  if 1 < messages.length then some messages.dropLast else none

/-- The composer-side truncation `history[-max_hist:]`, where a `None` or
empty history stays `None` (`if history:`). -/
def trunc_history {α : Type} (max_hist : ℕ) (history : Option (List α)) :
    Option (List α) :=
  match history with
  | none => none
  | some h => if h.isEmpty then none else some (take_last h max_hist)

/-! ### Response composer (app/rag.py `answer`, `answer_stream`)

The generative backend is an oracle: `chatResult` is the text the blocking
`ollama.chat` returns, `chatChunks` the fragment sequence `chat_stream`
yields. Prompt construction does not influence the claims and is abstracted.
Returns (text, trace, history handed to the chat call). -/

/-- `_cap_answer_length`: truncate to `limit` code points when longer
(`text[:limit]`). -/
def cap_answer_length (limit : ℕ) (text : String) : String :=
  if limit < text.length then String.mk (text.toList.take limit) else text

/-- `answer` (blocking): LOGIN_REQUIRED and ECARD return exact constants
with no external call; STATUS_CHECK without data returns the fixed fallback;
STATUS_CHECK with data chats over the status prompt and caps the result;
anything else runs the GENERAL path (retrieval, then chat, then cap). -/
def answer {α : Type} (limit auth_hist max_hist : ℕ) (intent : String)
    (ud : Option String) (history : Option (List α)) (chatResult : String) :
    String × List ExtCall × Option (List α) :=
  if intent == "LOGIN_REQUIRED" then (LOGIN_REQUIRED_RESPONSE, [], none)
  else if intent == "ECARD" then (ECARD_RESPONSE, [], none)
  else if intent == "STATUS_CHECK" then
    if ud.isSome then
      (cap_answer_length limit chatResult, [.llmChatCall],
        trunc_history auth_hist history)
    else (STATUS_NO_DATA_RESPONSE, [], none)
  else
    let mh := if ud.isSome then auth_hist else max_hist
    (cap_answer_length limit chatResult, [.retrieveCall, .llmChatCall],
      trunc_history mh history)

/-- `answer_stream` (streaming): the same routing, yielding fragments (and
the history handed to `chat_stream`). No length cap is applied on this path. -/
def answer_stream {α : Type} (auth_hist max_hist : ℕ) (intent : String)
    (ud : Option String) (history : Option (List α))
    (chatChunks : List String) :
    List String × List ExtCall × Option (List α) :=
  if intent == "LOGIN_REQUIRED" then ([LOGIN_REQUIRED_RESPONSE], [], none)
  else if intent == "ECARD" then ([ECARD_RESPONSE], [], none)
  else if intent == "STATUS_CHECK" then
    if ud.isSome then
      (chatChunks, [.llmChatCall], trunc_history auth_hist history)
    else ([STATUS_NO_DATA_RESPONSE], [], none)
  else
    let mh := if ud.isSome then auth_hist else max_hist
    (chatChunks, [.retrieveCall, .llmChatCall], trunc_history mh history)

/-! ### Streaming event generator (app/main.py `send_message_stream`) -/

/-- Server-sent events emitted by `event_generator`. -/
inductive StreamEvent
  | chunkEv (content : String)
  | errorEv (code : ℕ) (detail : String)
  | doneEv (messageId : Option String) (fullAnswer : String)
deriving DecidableEq

/-- How the guarded generation loop ends: normally, with a raised exception,
or by exceeding the wall-clock timeout. `chunks` are the fragments yielded
before that point. -/
inductive GenOutcome
  | ok
  | genFailure
  | genTimeout
deriving DecidableEq

/-- `event_generator`: emit a chunk event per fragment; on a timeout or a
failure emit the terminal error event and stop — without saving anything;
on normal completion save the joined answer under the thread lock (the save
outcome is the `save_ok` oracle; a failed save is logged and the done event
carries no message id) and emit the done event. The second component is the
assistant message content persisted for this request, if any. -/
def event_generator (chunks : List String) (outcome : GenOutcome)
    (save_ok : Bool) (msg_id : String) : List StreamEvent × Option String :=
  match outcome with
  | .genTimeout =>
      (chunks.map .chunkEv ++ [.errorEv 504 "Response timed out"], none)
  | .genFailure =>
      (chunks.map .chunkEv ++ [.errorEv 502 "Generation failed"], none)
  | .ok =>
      let full := String.join chunks
      (chunks.map .chunkEv ++
        [.doneEv (if save_ok then some msg_id else none) full],
       if save_ok then some full else none)

/-! ## Claim theorems -/

/-- C1: the claim says every admitted send-message request with successful
generation and persistence returns a well-formed response object containing
the persisted reply text. In the code the final `MessageResponse(message=...,
reply=..., options=..., audioUrl=...)` construction supplies none of the
three required fields `threadId`, `messageId`, `answer`, so it raises a
validation error on every success path instead of returning the answer. -/
theorem send_message_response_construction_fails :
    pydantic_construct_ok messageResponseRequiredFields sendMessageReturnKwargs
      = false := by
  decide

/-- C2: `ensure_thread` is idempotent — a second call is a no-op, a call on
a state without the thread creates exactly one entry for it, and for a valid
thread id the send-message setup never errors solely because the thread does
not yet exist (it succeeds and the thread exists afterwards). -/
theorem ensure_thread_idempotent (threads : List String) (tid : String) :
    ensure_thread (ensure_thread threads tid) tid = ensure_thread threads tid ∧
    (List.count tid threads = 0 →
      List.count tid (ensure_thread threads tid) = 1) ∧
    (valid_thread_id tid = true →
      ∃ threads2, send_message_thread_setup threads tid = some threads2 ∧
        tid ∈ threads2) := by
  refine ⟨?_, ?_, ?_⟩
  · by_cases h : tid ∈ threads
    · simp [ensure_thread, h]
    · simp [ensure_thread, h]
  · intro hcnt
    have h : tid ∉ threads := by
      intro hmem
      have := List.count_pos_iff.mpr hmem
      omega
    simp [ensure_thread, h, List.count_append, hcnt]
  · intro hvalid
    refine ⟨ensure_thread threads tid, ?_, ?_⟩
    · simp [send_message_thread_setup, hvalid]
    · by_cases h : tid ∈ threads
      · simp [ensure_thread, h]
      · simp [ensure_thread, h]

/-- Witness for C2 at a concrete input: the empty store and the valid id
`thread-1`. -/
theorem ensure_thread_idempotent_witness :
    List.count "thread-1" ([] : List String) = 0 ∧
    valid_thread_id "thread-1" = true ∧
    (List.count "thread-1" (ensure_thread [] "thread-1") = 1 ∧
      ∃ threads2, send_message_thread_setup [] "thread-1" = some threads2 ∧
        "thread-1" ∈ threads2) :=
  ⟨by decide, by decide,
    (ensure_thread_idempotent [] "thread-1").2.1 (by decide),
    (ensure_thread_idempotent [] "thread-1").2.2 (by decide)⟩

/-- A POST admission step for a caller whose tracked timestamps are all
within the window and below the limit: the request is allowed and `now` is
appended. -/
theorem dispatch_post_allowed_single (ip : String) (ts : List ℚ) (k : ℕ)
    (now : ℚ) (hts : ∀ t ∈ ts, now - t < 60) (hlen : ts.length < 5)
    (hcnt : k + 1 < 50) :
    dispatch 5 60 MAX_TRACKED_IPS ⟨[(ip, ts)], k⟩ .post ip now =
      (.allowed, ⟨[(ip, ts ++ [now])], k + 1⟩) := by
  have hfil : ts.filter (fun t => decide (now - t < 60)) = ts :=
    List.filter_eq_self.mpr (fun t ht => decide_eq_true (hts t ht))
  simp [dispatch, hitsGet, hitsSet, hfil, Nat.not_le.mpr hlen,
    Nat.not_le.mpr hcnt, MAX_TRACKED_IPS]

/-- A POST step at the limit: with five in-window timestamps the request is
rejected and the state is unchanged — nothing appended, no downstream call. -/
theorem dispatch_post_rejected_single (ip : String) (ts : List ℚ) (k : ℕ)
    (now : ℚ) (hts : ∀ t ∈ ts, now - t < 60) (hlen : 5 ≤ ts.length) :
    dispatch 5 60 MAX_TRACKED_IPS ⟨[(ip, ts)], k⟩ .post ip now =
      (.rejected, ⟨[(ip, ts)], k⟩) := by
  have hfil : ts.filter (fun t => decide (now - t < 60)) = ts :=
    List.filter_eq_self.mpr (fun t ht => decide_eq_true (hts t ht))
  simp [dispatch, hitsGet, hfil, hlen]

/-- A POST step after the whole window has elapsed: every old timestamp is
dropped and the request is admitted. -/
theorem dispatch_post_all_expired_single (ip : String) (ts : List ℚ) (k : ℕ)
    (now : ℚ) (hts : ∀ t ∈ ts, 60 ≤ now - t) (hcnt : k + 1 < 50) :
    dispatch 5 60 MAX_TRACKED_IPS ⟨[(ip, ts)], k⟩ .post ip now =
      (.allowed, ⟨[(ip, [now])], k + 1⟩) := by
  have hfil : ts.filter (fun t => decide (now - t < 60)) = [] := by
    refine List.filter_eq_nil_iff.mpr (fun t ht => ?_)
    simpa using not_lt.mpr (hts t ht)
  simp [dispatch, hitsGet, hitsSet, hfil, Nat.not_le.mpr hcnt, MAX_TRACKED_IPS]

/-- C6: with `maxRequests = 5`, `window = 60`, six POST requests from one
caller with nondecreasing times all inside one window produce five
admissions and exactly one rejection (the sixth); the rejection leaves the
caller's timestamp list (and the whole limiter state) unchanged and invokes
no downstream handler; a seventh request a full window after the sixth is
admitted. -/
theorem rate_limiter_sliding_window (t0 t1 t2 t3 t4 t5 t6 : ℚ)
    (h01 : t0 ≤ t1) (h12 : t1 ≤ t2) (h23 : t2 ≤ t3) (h34 : t3 ≤ t4)
    (h45 : t4 ≤ t5) (hwin : t5 - t0 < 60) (hgap : 60 ≤ t6 - t5) :
    rl_run 5 60 MAX_TRACKED_IPS "caller" [t0, t1, t2, t3, t4, t5] =
      ([.allowed, .allowed, .allowed, .allowed, .allowed, .rejected],
        ⟨[("caller", [t0, t1, t2, t3, t4])], 5⟩) ∧
    dispatch 5 60 MAX_TRACKED_IPS ⟨[("caller", [t0, t1, t2, t3, t4])], 5⟩
        .post "caller" t5 =
      (.rejected, ⟨[("caller", [t0, t1, t2, t3, t4])], 5⟩) ∧
    dispatch 5 60 MAX_TRACKED_IPS ⟨[("caller", [t0, t1, t2, t3, t4])], 5⟩
        .post "caller" t6 =
      (.allowed, ⟨[("caller", [t6])], 6⟩) := by
  have e0 : dispatch 5 60 MAX_TRACKED_IPS ⟨[], 0⟩ .post "caller" t0 =
      (.allowed, ⟨[("caller", [t0])], 1⟩) := by
    simp [dispatch, hitsGet, hitsSet, MAX_TRACKED_IPS]
  have e1 := dispatch_post_allowed_single "caller" [t0] 1 t1
    (by intro t ht; simp at ht; subst ht; linarith)
    (by simp) (by omega)
  have e2 := dispatch_post_allowed_single "caller" [t0, t1] 2 t2
    (by intro t ht; simp at ht; rcases ht with rfl | rfl <;> linarith)
    (by simp) (by omega)
  have e3 := dispatch_post_allowed_single "caller" [t0, t1, t2] 3 t3
    (by intro t ht; simp at ht; rcases ht with rfl | rfl | rfl <;> linarith)
    (by simp) (by omega)
  have e4 := dispatch_post_allowed_single "caller" [t0, t1, t2, t3] 4 t4
    (by intro t ht; simp at ht; rcases ht with rfl | rfl | rfl | rfl <;> linarith)
    (by simp) (by omega)
  have e5 := dispatch_post_rejected_single "caller" [t0, t1, t2, t3, t4] 5 t5
    (by intro t ht; simp at ht; rcases ht with rfl | rfl | rfl | rfl | rfl <;> linarith)
    (by simp)
  have e6 := dispatch_post_all_expired_single "caller" [t0, t1, t2, t3, t4] 5 t6
    (by intro t ht; simp at ht; rcases ht with rfl | rfl | rfl | rfl | rfl <;> linarith)
    (by omega)
  refine ⟨?_, e5, e6⟩
  simp [rl_run, e0, e1, e2, e3, e4, e5]

/-- Witness for C6 at concrete times: six requests at time 0 and a seventh
at time 60. -/
theorem rate_limiter_sliding_window_witness :
    rl_run 5 60 MAX_TRACKED_IPS "caller" [0, 0, 0, 0, 0, 0] =
      ([.allowed, .allowed, .allowed, .allowed, .allowed, .rejected],
        ⟨[("caller", [0, 0, 0, 0, 0])], 5⟩) ∧
    dispatch 5 60 MAX_TRACKED_IPS ⟨[("caller", [0, 0, 0, 0, 0])], 5⟩
        .post "caller" 0 =
      (.rejected, ⟨[("caller", [0, 0, 0, 0, 0])], 5⟩) ∧
    dispatch 5 60 MAX_TRACKED_IPS ⟨[("caller", [0, 0, 0, 0, 0])], 5⟩
        .post "caller" 60 =
      (.allowed, ⟨[("caller", [60])], 6⟩) :=
  rate_limiter_sliding_window 0 0 0 0 0 0 60 (le_refl 0) (le_refl 0)
    (le_refl 0) (le_refl 0) (le_refl 0) (by simp) (by simp)

/-- The eviction loop always leaves strictly fewer than `cap` entries when
the capacity is positive. -/
theorem evict_at_capacity_length_lt (cap : ℕ) (hcap : 1 ≤ cap) :
    ∀ l : List (String × ℕ), (evict_at_capacity cap l).length < cap := by
  intro l
  induction l with
  | nil => simpa [evict_at_capacity] using hcap
  | cons e rest ih =>
      rw [evict_at_capacity]
      split
      · assumption
      · exact ih

/-- The eviction loop is a no-op below capacity. -/
theorem evict_at_capacity_noop (cap : ℕ) (l : List (String × ℕ))
    (h : l.length < cap) : evict_at_capacity cap l = l := by
  cases l with
  | nil => rfl
  | cons e rest => rw [evict_at_capacity, if_pos h]

/-- One acquisition never grows the registry beyond capacity. -/
theorem get_thread_lock_preserves_card (cap : ℕ) (hcap : 1 ≤ cap)
    (st : LockRegistry) (tid : String) (h : st.entries.length ≤ cap) :
    (get_thread_lock cap st tid).2.entries.length ≤ cap := by
  rw [get_thread_lock]
  cases hfind : lookupLock st.entries tid with
  | some lk =>
      have : ∃ e, st.entries.find? (fun e => e.1 == tid) = some e := by
        rcases Option.map_eq_some'.mp hfind with ⟨e, he, _⟩
        exact ⟨e, he⟩
      rcases this with ⟨e, he⟩
      have hmem : e ∈ st.entries := List.mem_of_find?_eq_some he
      have hpe : (e.1 == tid) = true := by simpa using List.find?_some he
      have hlt : (st.entries.filter (fun e => !(e.1 == tid))).length <
          st.entries.length :=
        List.length_filter_lt_length_iff_exists.mpr
          ⟨e, hmem, by simp [hpe]⟩
      simp only [List.length_append, List.length_cons, List.length_nil]
      omega
  | none =>
      have := evict_at_capacity_length_lt cap hcap st.entries
      simp only [List.length_append, List.length_cons, List.length_nil]
      omega

/-- C7: for the capacity-bounded LRU lock registry, (1) starting from the
empty registry, no acquisition sequence ever leaves more than `cap` entries;
(2) looking up a present thread id returns the identical lock primitive and
moves its entry to the most-recently-used (last) position, leaving the other
entries in order; (3) an insertion at capacity evicts exactly the
least-recently-used (front) entry. -/
theorem thread_lock_registry_lru (cap : ℕ) (hcap : 1 ≤ cap) :
    (∀ tids : List String, (acquireAll cap tids).entries.length ≤ cap) ∧
    (∀ (st : LockRegistry) (tid : String) (lk : ℕ),
      lookupLock st.entries tid = some lk →
        (get_thread_lock cap st tid).1 = lk ∧
        (get_thread_lock cap st tid).2.entries =
          st.entries.filter (fun e => !(e.1 == tid)) ++ [(tid, lk)]) ∧
    (∀ (st : LockRegistry) (tid : String),
      st.entries.length = cap → lookupLock st.entries tid = none →
        (get_thread_lock cap st tid).2.entries =
          st.entries.tail ++ [(tid, st.nextId)]) := by
  refine ⟨?_, ?_, ?_⟩
  · intro tids
    have key : ∀ (st : LockRegistry), st.entries.length ≤ cap →
        (tids.foldl (fun st tid => (get_thread_lock cap st tid).2) st).entries.length
          ≤ cap := by
      induction tids with
      | nil => intro st h; exact h
      | cons t ts ih =>
          intro st h
          exact ih _ (get_thread_lock_preserves_card cap hcap st t h)
    exact key ⟨[], 0⟩ (by simp)
  · intro st tid lk hfind
    rw [get_thread_lock, hfind]
    exact ⟨rfl, rfl⟩
  · intro st tid hlen hfind
    rw [get_thread_lock, hfind]
    cases hst : st.entries with
    | nil => simp [hst] at hlen; omega
    | cons e rest =>
        have hrest : rest.length < cap := by
          have := hlen
          rw [hst] at this
          simp at this
          omega
        simp only [hst, List.tail_cons]
        rw [evict_at_capacity, if_neg (by rw [← hst, hlen]; omega),
          evict_at_capacity_noop cap rest hrest]

/-- Witness for C7 at capacity 2: a three-acquisition run stays within
capacity; looking up "a" in a full registry returns lock 0 and moves it
last; inserting "c" into the full registry evicts the front entry. -/
theorem thread_lock_registry_lru_witness :
    (acquireAll 2 ["a", "b", "c"]).entries.length ≤ 2 ∧
    ((get_thread_lock 2 ⟨[("a", 0), ("b", 1)], 2⟩ "a").1 = 0 ∧
      (get_thread_lock 2 ⟨[("a", 0), ("b", 1)], 2⟩ "a").2.entries =
        [("a", 0), ("b", 1)].filter (fun e => !(e.1 == "a")) ++ [("a", 0)]) ∧
    (get_thread_lock 2 ⟨[("a", 0), ("b", 1)], 2⟩ "c").2.entries =
      [("a", 0), ("b", 1)].tail ++ [("c", 2)] :=
  ⟨(thread_lock_registry_lru 2 (by decide)).1 ["a", "b", "c"],
    (thread_lock_registry_lru 2 (by decide)).2.1 ⟨[("a", 0), ("b", 1)], 2⟩
      "a" 0 (by decide),
    (thread_lock_registry_lru 2 (by decide)).2.2 ⟨[("a", 0), ("b", 1)], 2⟩
      "c" (by decide) (by decide)⟩

/-- C3: when streaming generation raises mid-stream or exceeds the
wall-clock timeout, the emitted event sequence ends with the terminal error
event (502 for a failure, 504 for a timeout) and no assistant message is
persisted — the partial accumulated answer is never stored. -/
theorem stream_failure_no_persist (chunks : List String)
    (outcome : GenOutcome) (save_ok : Bool) (msg_id : String)
    (h : outcome = .genFailure ∨ outcome = .genTimeout) :
    (event_generator chunks outcome save_ok msg_id).2 = none ∧
    (event_generator chunks outcome save_ok msg_id).1.getLast? =
      some (if outcome = .genTimeout then .errorEv 504 "Response timed out"
        else .errorEv 502 "Generation failed") := by
  rcases h with rfl | rfl <;> simp [event_generator]

/-- Witness for C3: a timed-out stream that had already yielded two
fragments. -/
theorem stream_failure_no_persist_witness :
    (event_generator ["par", "tial"] .genTimeout true "m1").2 = none ∧
    (event_generator ["par", "tial"] .genTimeout true "m1").1.getLast? =
      some (if GenOutcome.genTimeout = .genTimeout
        then .errorEv 504 "Response timed out"
        else .errorEv 502 "Generation failed") :=
  stream_failure_no_persist ["par", "tial"] .genTimeout true "m1" (Or.inr rfl)

/-- C4 counterexample: the claim says the streaming variant's concatenated
fragments also respect MAX_ANSWER_LENGTH. `answer_stream` applies no cap:
a single generated fragment of MAX_ANSWER_LENGTH + 1 characters passes
through the GENERAL path unchanged, so the concatenated answer exceeds the
budget. -/
theorem answer_stream_uncapped_counterexample :
    ¬ (String.join (answer_stream 6 10 "GENERAL" none
          (none : Option (List ℕ))
          [String.mk (List.replicate (MAX_ANSWER_LENGTH + 1) 'a')]).1).length
        ≤ MAX_ANSWER_LENGTH := by
  have h1 : (answer_stream 6 10 "GENERAL" none (none : Option (List ℕ))
      [String.mk (List.replicate (MAX_ANSWER_LENGTH + 1) 'a')]).1 =
      [String.mk (List.replicate (MAX_ANSWER_LENGTH + 1) 'a')] := by
    simp [answer_stream]
  rw [h1]
  have h2 : String.join [String.mk (List.replicate (MAX_ANSWER_LENGTH + 1) 'a')] =
      "" ++ String.mk (List.replicate (MAX_ANSWER_LENGTH + 1) 'a') := rfl
  rw [h2]
  have h3 : ("" ++ String.mk (List.replicate (MAX_ANSWER_LENGTH + 1) 'a')).length
      = MAX_ANSWER_LENGTH + 1 := by simp
  rw [h3]
  omega

/-- Every capped text has at most `limit` characters. -/
theorem cap_answer_length_le (limit : ℕ) (t : String) :
    (cap_answer_length limit t).length ≤ limit := by
  rw [cap_answer_length]
  split
  · have : (String.mk (t.toList.take limit)).length = min limit t.toList.length :=
      by simp
    omega
  · omega

/-- C4 amended: in the blocking variant every LLM-generated response
(STATUS_CHECK with data, and the GENERAL fallthrough) is truncated to at
most the configured MAX_ANSWER_LENGTH; the streaming variant applies no
truncation (see the counterexample), and the fixed sentinel constants bypass
the cap. -/
theorem answer_blocking_generated_capped {α : Type}
    (limit auth_hist max_hist : ℕ) (intent : String) (ud : Option String)
    (history : Option (List α)) (chatResult : String)
    (h : intent ≠ "LOGIN_REQUIRED" ∧ intent ≠ "ECARD" ∧
      (intent = "STATUS_CHECK" → ud.isSome = true)) :
    (answer limit auth_hist max_hist intent ud history chatResult).1.length
      ≤ limit := by
  obtain ⟨h1, h2, h3⟩ := h
  by_cases hs : intent = "STATUS_CHECK"
  · simp [answer, h1, h2, hs, h3 hs, cap_answer_length_le]
  · simp [answer, h1, h2, hs, cap_answer_length_le]

/-- Witness for the amended C4: a six-character generated GENERAL answer is
cut to the three-character budget. -/
theorem answer_blocking_generated_capped_witness :
    (answer 3 6 10 "GENERAL" none (none : Option (List ℕ)) "abcdef").1.length
      ≤ 3 :=
  answer_blocking_generated_capped 3 6 10 "GENERAL" none none "abcdef"
    ⟨by decide, by decide, by decide⟩

/-- A record saved for (thread, user) is what the cache lookup for that pair
returns afterwards. -/
theorem get_cached_after_save (cache : Cache) (tid uid d : String) :
    get_cached_user_data (save_user_data cache tid uid d) tid uid = some d := by
  rw [get_cached_user_data, save_user_data, List.find?_append]
  have h1 : (cache.filter
      (fun e => !(e.1.1 == tid && e.1.2 == uid))).find?
      (fun e => e.1.1 == tid && e.1.2 == uid) = none := by
    refine List.find?_eq_none.mpr (fun e he => ?_)
    have := (List.mem_filter.mp he).2
    simp at this ⊢
    tauto
  rw [h1]
  simp

/-- C5: the personal-data resolve operation — a present cache entry is
returned unchanged with no external fetch; on a miss the fetch runs exactly
once, a successful fetch is persisted as the cache entry for (thread, user)
and returned, and a failed or empty fetch yields `none` and writes nothing. -/
theorem personal_data_cache_or_fetch (cache : Cache) (fetch : FetchResult)
    (tid uid : String) :
    match get_cached_user_data cache tid uid, fetch with
    | some d, _ =>
        get_or_fetch_user_data cache fetch tid uid = (some d, cache, [])
    | none, .fetchOk d =>
        (get_or_fetch_user_data cache fetch tid uid).1 = some d ∧
        (get_or_fetch_user_data cache fetch tid uid).2.2 = [.fetchUser] ∧
        get_cached_user_data
          (get_or_fetch_user_data cache fetch tid uid).2.1 tid uid = some d
    | none, .fetchError =>
        get_or_fetch_user_data cache fetch tid uid = (none, cache, [.fetchUser])
    | none, .fetchEmpty =>
        get_or_fetch_user_data cache fetch tid uid =
          (none, cache, [.fetchUser]) := by
  cases hc : get_cached_user_data cache tid uid with
  | some d => simp [get_or_fetch_user_data, hc]
  | none =>
      cases fetch with
      | fetchError => simp [get_or_fetch_user_data, hc]
      | fetchEmpty => simp [get_or_fetch_user_data, hc]
      | fetchOk d => simp [get_or_fetch_user_data, hc, get_cached_after_save]

/-- The keyword layer can only produce ECARD or STATUS_CHECK. -/
theorem keyword_intent_values (msg : String) :
    keyword_intent msg = none ∨ keyword_intent msg = some "ECARD" ∨
      keyword_intent msg = some "STATUS_CHECK" := by
  rw [keyword_intent]
  split_ifs <;> simp

/-- C8: an unauthenticated request (missing user id or token) whose message
matches a card or status keyword is classified LOGIN_REQUIRED with no
external call of any kind, and the composer then returns exactly the fixed
login-required sentinel — again with no generative call. -/
theorem login_required_sentinel {α : Type} (msg uid tok tid : String)
    (llmRaw : Option String) (cache : Cache) (fetch : FetchResult)
    (limit auth_hist max_hist : ℕ) (history : Option (List α))
    (chatResult : String)
    (hkw : keyword_intent msg ≠ none) (hunauth : uid = "" ∨ tok = "") :
    classify_and_prepare msg uid tok llmRaw cache fetch tid =
      (("LOGIN_REQUIRED", none), cache, []) ∧
    answer limit auth_hist max_hist "LOGIN_REQUIRED" none history chatResult =
      (LOGIN_REQUIRED_RESPONSE, [], none) := by
  constructor
  · have hauth : (!(uid == "") && !(tok == "")) = false := by
      rcases hunauth with rfl | rfl <;> simp
    have hkval : keyword_intent msg = some "ECARD" ∨
        keyword_intent msg = some "STATUS_CHECK" := by
      rcases keyword_intent_values msg with h | h | h
      · exact absurd h hkw
      · exact Or.inl h
      · exact Or.inr h
    rcases hkval with hk | hk <;>
      simp [classify_and_prepare, classify_intent, hk, hauth]
  · simp [answer]

/-- Witness for C8: the message "my card" (an ECARD keyword) from a caller
with an empty user id. -/
theorem login_required_sentinel_witness :
    classify_and_prepare "my card" "" "tok1" none [] .fetchError "thread-1" =
      (("LOGIN_REQUIRED", none), [], []) ∧
    answer 50000 6 10 "LOGIN_REQUIRED" none (none : Option (List ℕ)) "x" =
      (LOGIN_REQUIRED_RESPONSE, [], none) :=
  login_required_sentinel "my card" "" "tok1" "thread-1" none [] .fetchError
    50000 6 10 none "x" (by decide) (Or.inl rfl)

/-- C9: a thread holding 20 prior messages plus the just-added user message,
with the authenticated history window of 6: the composer is handed exactly
the 6 most recent prior messages (`prior.drop 14`), in original order; the
composer-side truncation then passes all 6 of them to the chat call. -/
theorem history_window_most_recent {α : Type} (prior : List α) (u : α)
    (h : prior.length = 20) :
    compute_history (prior ++ [u]) AUTHENTICATED_HISTORY_MESSAGES =
      some (prior.drop 14) ∧
    (prior.drop 14).length = 6 ∧
    prior.drop 14 = take_last prior AUTHENTICATED_HISTORY_MESSAGES ∧
    trunc_history AUTHENTICATED_HISTORY_MESSAGES (some (prior.drop 14)) =
      some (prior.drop 14) := by
  have hd6 : (prior.drop 14).length = 6 := by simp [h]
  have hrec : get_recent_thread_messages (prior ++ [u])
      (AUTHENTICATED_HISTORY_MESSAGES + 1) = prior.drop 14 ++ [u] := by
    have hlen : (prior ++ [u]).length = 21 := by simp [h]
    rw [get_recent_thread_messages, AUTHENTICATED_HISTORY_MESSAGES, hlen]
    have h14 : 21 - (6 + 1) = 14 := by norm_num
    rw [h14, List.drop_append_of_le_length (by omega)]
  refine ⟨?_, hd6, ?_, ?_⟩
  · simp only [compute_history, hrec]
    rw [if_pos (by simp [hd6])]
    simp
  · rw [take_last, AUTHENTICATED_HISTORY_MESSAGES, h]
  · rw [trunc_history]
    have hne : (prior.drop 14).isEmpty = false := by
      cases hd : prior.drop 14 with
      | nil => rw [hd] at hd6; simp at hd6
      | cons a l => simp
    rw [hne]
    simp only [Bool.false_eq_true, if_false]
    rw [take_last, hd6, AUTHENTICATED_HISTORY_MESSAGES]
    simp

/-- Witness for C9 with the thread `0, 1, ..., 19` and the new message 20. -/
theorem history_window_most_recent_witness :
    compute_history (List.range 20 ++ [20]) AUTHENTICATED_HISTORY_MESSAGES =
      some ((List.range 20).drop 14) ∧
    ((List.range 20).drop 14).length = 6 ∧
    (List.range 20).drop 14 =
      take_last (List.range 20) AUTHENTICATED_HISTORY_MESSAGES ∧
    trunc_history AUTHENTICATED_HISTORY_MESSAGES
        (some ((List.range 20).drop 14)) =
      some ((List.range 20).drop 14) :=
  history_window_most_recent (List.range 20) 20 (by decide)

/-- C10: two serialized status-intent requests by the same authenticated
user on a fresh thread: the first runs the external fetch exactly once and
caches the record; the second — whatever its fetch oracle would return —
performs no external call and observes the first request's cached record. -/
theorem exactly_once_fetch_per_thread (msg uid tok tid d : String)
    (llm1 llm2 : Option String) (fetch2 : FetchResult)
    (hkw : keyword_intent msg = some "STATUS_CHECK")
    (huid : uid ≠ "") (htok : tok ≠ "") :
    classify_and_prepare msg uid tok llm1 [] (.fetchOk d) tid =
      (("STATUS_CHECK", some d), [((tid, uid), d)], [.fetchUser]) ∧
    classify_and_prepare msg uid tok llm2 [((tid, uid), d)] fetch2 tid =
      (("STATUS_CHECK", some d), [((tid, uid), d)], []) := by
  have hauth : (!(uid == "") && !(tok == "")) = true := by
    simp [huid, htok]
  constructor
  · simp [classify_and_prepare, classify_intent, hkw, hauth,
      get_or_fetch_user_data, get_cached_user_data, save_user_data]
  · simp [classify_and_prepare, classify_intent, hkw, hauth,
      get_or_fetch_user_data, get_cached_user_data]

/-- Witness for C10: the status keyword message "check status", user "u1"
on the fresh thread "thread-1", a fixed record fixture, and a would-fail
second fetch oracle (which is never consulted). -/
theorem exactly_once_fetch_per_thread_witness :
    classify_and_prepare "check status" "u1" "tok1" none []
        (.fetchOk "rec") "thread-1" =
      (("STATUS_CHECK", some "rec"), [(("thread-1", "u1"), "rec")],
        [.fetchUser]) ∧
    classify_and_prepare "check status" "u1" "tok1" none
        [(("thread-1", "u1"), "rec")] .fetchError "thread-1" =
      (("STATUS_CHECK", some "rec"), [(("thread-1", "u1"), "rec")], []) :=
  exactly_once_fetch_per_thread "check status" "u1" "tok1" "thread-1" "rec"
    none none .fetchError (by decide) (by decide) (by decide)

end KSK
